import Mathlib

/-!
Verification of the WhatsApp customer-support agent (Node.js source) against
its natural-language specification.  The JavaScript services are shallowly
embedded: strings are `String`/`List Char`, the Redis cache is an explicit
association list with expiry times, Prisma tables are lists of records, and
every external call (hosted model, language detection) is an explicit
outcome parameter.  Machine times are naturals (milliseconds), confidences
are rationals.
-/

/-! ## JavaScript string primitives (on `List Char`) -/

/-- JS `String.prototype.toLowerCase` restricted to the ASCII and Latin-1
ranges actually exercised by the keyword tables of the source. -/
def jsLower (c : Char) : Char :=
  if 'A' ≤ c ∧ c ≤ 'Z' then Char.ofNat (c.toNat + 32)
  else if 0xC0 ≤ c.toNat ∧ c.toNat ≤ 0xDE ∧ c.toNat ≠ 0xD7 then Char.ofNat (c.toNat + 32)
  else c

/-- JS `\s` for the characters the pipeline can meet. -/
def isWS (c : Char) : Bool :=
  c = ' ' ∨ c = '\t' ∨ c = '\n' ∨ c = '\r' ∨ c = Char.ofNat 11 ∨ c = Char.ofNat 12

/-- JS `String.prototype.trim`. -/
def jsTrim (l : List Char) : List Char :=
  ((l.dropWhile isWS).reverse.dropWhile isWS).reverse

/-- Case-sensitive prefix test used by the substring search. -/
def listStarts : List Char → List Char → Bool
  | [], _ => true
  | _ :: _, [] => false
  | p :: ps, c :: cs => p = c && listStarts ps cs

/-- JS `String.prototype.includes`: does `pat` occur inside `hay`? -/
def containsSub (hay pat : List Char) : Bool :=
  match hay with
  | [] => pat.isEmpty
  | _ :: t => listStarts pat hay || containsSub t pat

/-- Prefix test where the haystack is lower-cased on the fly (models a
case-insensitive regex whose pattern is already lower case). -/
def lowerStarts : List Char → List Char → Bool
  | [], _ => true
  | _ :: _, [] => false
  | p :: ps, c :: cs => p = jsLower c && lowerStarts ps cs

/-- `content.replace(new RegExp(keyword, 'gi'), '')`: remove every
leftmost, non-overlapping, case-insensitive occurrence of `pat` (a
non-empty lower-case keyword).  The fuel argument is always called with
the length of the scanned list, which bounds the recursion. -/
def stripMatchesF (pat : List Char) : Nat → List Char → List Char
  | 0, l => l
  | _, [] => []
  | Nat.succ f, c :: rest =>
      if lowerStarts pat (c :: rest) then
        stripMatchesF pat f (List.drop (pat.length - 1) rest)
      else
        c :: stripMatchesF pat f rest

def stripMatches (pat l : List Char) : List Char :=
  stripMatchesF pat l.length l

/-- JS `String.prototype.split` with a character-class separator: no
merging of adjacent separators, empty fields preserved. -/
def splitBy (p : Char → Bool) : List Char → List (List Char)
  | [] => [[]]
  | c :: rest =>
      match splitBy p rest with
      | [] => [[]]
      | cur :: done => if p c then [] :: cur :: done else (c :: cur) :: done

/-- `array.join(' ')`. -/
def joinSpace : List (List Char) → List Char
  | [] => []
  | [x] => x
  | x :: y :: rest => x ++ ' ' :: joinSpace (y :: rest)

/-- Collapse each maximal whitespace run to one space
(`replace(/\s+/g, ' ')`); `prev` records whether the previous character
belonged to a run already emitted. -/
def collapseWSAux : List Char → Bool → List Char
  | [], _ => []
  | c :: rest, prev =>
      if isWS c then
        if prev then collapseWSAux rest true else ' ' :: collapseWSAux rest true
      else
        c :: collapseWSAux rest false

/-! ## String-level wrappers -/

def jsLowerS (s : String) : String := String.mk (s.data.map jsLower)

def jsTrimS (s : String) : String := String.mk (jsTrim s.data)

def containsS (hay pat : String) : Bool := containsSub hay.data pat.data

/-- JS `substring(0, n)` (UTF-16 units coincide with scalars on the texts
in scope). -/
def takeS (s : String) (n : Nat) : String := String.mk (s.data.take n)

def splitSpaces (s : String) : List String :=
  (splitBy (fun c => c = ' ') s.data).map String.mk

/-! ## MessageFormatter (src/services/messageFormatter.js) -/

/-- `truncateText(text, maxLength)`. -/
def truncateText (text : String) (maxLength : Nat) : String :=
  if text = "" ∨ text.data.length ≤ maxLength then text
  else String.mk (text.data.take (maxLength - 3)) ++ "..."

/-- `cleanText(text)`: trim then collapse inner whitespace. -/
def cleanText (text : String) : String :=
  String.mk (collapseWSAux (jsTrim text.data) false)

/-! ## TicketMessageHandler (src/services/ticketMessageHandler.js) -/

structure TicketInfo where
  title : String
  description : String
  category : Option String
deriving Repr, DecidableEq

/-- Trigger keyword table of `extractTicketInfo`. -/
def ticketKeywords (language : String) : List String :=
  if language = "en" then
    ["create ticket", "new ticket", "open ticket", "problem", "bug", "help"]
  else
    ["créer un ticket", "nouveau ticket", "ouvrir un ticket", "problème", "bug", "aide"]

/-- Default generic title (`'Demande d'assistance'` / `'Support Request'`). -/
def defaultTicketTitle (language : String) : String :=
  if language = "fr" then "Demande d'assistance" else "Support Request"

/-- `generateTitleFromText(text, language)`. -/
def generateTitleFromText (text : String) (language : String) : String :=
  if text = "" then defaultTicketTitle language
  else
    let words := (splitBy (fun c => c = ' ') text.data).take 8
    let title := joinSpace words
    let title := if title.length > 50 then title.take 47 ++ "...".data else title
    if title.isEmpty then defaultTicketTitle language else String.mk title

/-- Separator class `[:\n-]` of `extractTicketInfo`. -/
def isTicketSep (c : Char) : Bool := c = ':' ∨ c = '\n' ∨ c = '-'

/-- Keyword-stripping stage of `extractTicketInfo`: remove every trigger
keyword, trimming after each replacement, and fall back to the whole
cleaned text when fewer than 10 characters remain. -/
def ticketContent (text : String) (language : String) : String :=
  let cleanT := cleanText text
  let content :=
    (ticketKeywords language).foldl
      (fun acc kw => String.mk (jsTrim (stripMatches kw.data acc.data))) cleanT
  if content.data.length < 10 then cleanT else content

/-- `content.includes(':') || content.includes('-') || content.includes('\n')`. -/
def hasTicketSep (content : String) : Bool :=
  containsS content ":" || containsS content "-" || containsS content "\n"

/-- `content.split(/[:\n-]/).map(p => p.trim()).filter(p => p.length > 0)`. -/
def ticketParts (content : String) : List String :=
  (((splitBy isTicketSep content.data).map jsTrim).filter
    (fun p => p.length > 0)).map String.mk

/-- `extractTicketInfo(text, language)`. -/
def extractTicketInfo (text : String) (language : String) : TicketInfo :=
  let content := ticketContent text language
  let result :=
    if hasTicketSep content then
      match ticketParts content with
      | p0 :: p1 :: rest =>
          (truncateText p0 100, String.mk (joinSpace ((p1 :: rest).map String.data)))
      | _ => (generateTitleFromText content language, content)
    else
      (generateTitleFromText content language, content)
  { title := if result.1 = "" then defaultTicketTitle language else result.1
    description := if result.2 = "" then content else result.2
    category := none }

/-! ## TicketService (src/services/ticketService.js) -/

def urgentKeywords (language : String) : List String :=
  if language = "en" then
    ["urgent", "critical", "blocked", "down", "not working", "broken", "critical error"]
  else if language = "fr" then
    ["urgent", "critique", "bloqué", "panne", "ne fonctionne pas", "cassé", "erreur critique"]
  else
    ["urgent", "critique", "bloqué", "panne", "ne fonctionne pas", "cassé", "erreur critique"]

def highPriorityKeywords (language : String) : List String :=
  if language = "en" then
    ["important", "quickly", "fast", "problem", "bug", "malfunction"]
  else if language = "fr" then
    ["important", "rapidement", "vite", "problème", "bug", "dysfonctionnement"]
  else
    ["important", "rapidement", "vite", "problème", "bug", "dysfonctionnement"]

/-- `determinePriority(text, language)`: urgent keywords first, then high,
default NORMAL. -/
def determinePriority (text : String) (language : String) : String :=
  let lowerText := jsLowerS text
  if (urgentKeywords language).any (fun w => containsS lowerText w) then "URGENT"
  else if (highPriorityKeywords language).any (fun w => containsS lowerText w) then "HIGH"
  else "NORMAL"

def categoryKeywords (language : String) : List (String × List String) :=
  if language = "en" then
    [("technical", ["bug", "error", "not working", "crash", "slow", "connection"]),
     ("billing", ["invoice", "payment", "price", "cost", "refund", "subscription"]),
     ("order", ["order", "delivery", "shipping", "received", "product"]),
     ("account", ["account", "profile", "password", "login", "access"]),
     ("general", ["information", "question", "help", "how"])]
  else
    [("technique", ["bug", "erreur", "ne fonctionne pas", "plantage", "lent", "connexion"]),
     ("facturation", ["facture", "paiement", "prix", "coût", "remboursement", "abonnement"]),
     ("commande", ["commande", "livraison", "expédition", "reçu", "produit"]),
     ("compte", ["compte", "profil", "mot de passe", "connexion", "accès"]),
     ("général", ["information", "question", "aide", "comment"])]

/-- `determineCategory(text, language)`. -/
def determineCategory (text : String) (language : String) : String :=
  let lowerText := jsLowerS text
  match (categoryKeywords language).find?
      (fun cw => cw.2.any (fun w => containsS lowerText w)) with
  | some cw => cw.1
  | none => "général"

/-! ## Redis-backed cache (src/config/redis.js, `CacheService`)

`set` is SETEX: the entry expires `ttl` seconds after it was written; `get`
returns the value while the current time is strictly below the expiry.
Times are milliseconds (`Date.now()`), TTLs are seconds as in the source. -/

structure CacheEntry (α : Type) where
  key : String
  value : α
  expiresAt : Nat
deriving Repr, DecidableEq

def Cache (α : Type) : Type := List (CacheEntry α)

/-- `CacheService.get`: the most recent write of a key shadows older ones. -/
def cacheGet (c : Cache α) (k : String) (now : Nat) : Option α :=
  match List.find? (fun e => e.key = k) c with
  | some e => if now < e.expiresAt then some e.value else none
  | none => none

/-- `CacheService.set(key, value, ttl)`. -/
def cacheSet (c : Cache α) (k : String) (v : α) (ttl now : Nat) : Cache α :=
  { key := k, value := v, expiresAt := now + ttl * 1000 } :: c

/-! ## Error taxonomy (src/middleware/errorMiddleware.js) -/

inductive SvcError where
  | validation (msg : String)
  | notFound (msg : String)
  | openAI (msg : String) (status : Nat)
deriving Repr, DecidableEq

/-! ## NLPService (src/services/nlpService.js) -/

/-- 32-bit signed wrap-around used by the JS `|`/`&` coercions. -/
def wrap32 (n : Int) : Int := (n + 2 ^ 31) % 2 ^ 32 - 2 ^ 31

/-- One step of `hashText`: `hash = ((hash << 5) - hash) + char; hash &= hash`. -/
def hashStep (h : Int) (c : Char) : Int :=
  wrap32 (wrap32 (32 * h) - h + (c.toNat : Int))

def digit36 (n : Nat) : Char :=
  if n < 10 then Char.ofNat (48 + n) else Char.ofNat (87 + n)

/-- Base-36 digits of `n`, most significant first; fuel-bounded recursion
(`n + 1` fuel always suffices since `n / 36 < n` for positive `n`). -/
def natToBase36 : Nat → Nat → List Char
  | 0, _ => []
  | Nat.succ f, n => if n = 0 then [] else natToBase36 f (n / 36) ++ [digit36 (n % 36)]

/-- `hashText(text)`: 32-bit rolling hash, absolute value, base-36 string. -/
def hashText (text : String) : String :=
  let h := (text.data.foldl hashStep 0).natAbs
  if h = 0 then "0" else String.mk (natToBase36 (h + 1) h)

def supportedIntents : List String :=
  ["greeting", "help", "create_ticket", "check_ticket_status", "faq",
   "contact_agent", "goodbye", "complaint", "compliment", "product_inquiry",
   "order_status", "refund_request", "technical_support", "billing_inquiry"]

/-- Normalised intent-analysis result.  `fallback` models the extra
`fallback: true` key of keyword-table results (absent key ≡ `false`). -/
structure IntentResult where
  intent : String
  confidence : Rat
  entities : List (String × String)
  sentiment : String
  originalText : String
  language : String
  timestamp : Nat
  fallback : Bool
deriving Repr, DecidableEq

/-- Fields of the JSON object the hosted model returned (post-parse).
`confidence = none` models a missing or non-numeric field
(`parseFloat(...) || 0`). -/
structure ParsedModelOutput where
  intent : String
  confidence : Option Rat
  entities : Option (List (String × String))
  sentiment : Option String
deriving Repr, DecidableEq

inductive ApiErrorCode where
  | insufficientQuota
  | rateLimitExceeded
  | other
deriving Repr, DecidableEq

/-- Outcome of the single hosted-model call of `analyzeIntent`. -/
inductive ModelOutcome where
  | success (out : ParsedModelOutput)
  | parseFailure
  | apiFailure (code : ApiErrorCode)
deriving Repr, DecidableEq

/-- `normalizeIntentResult(result, originalText, language)`. -/
def normalizeIntentResult (r : ParsedModelOutput) (originalText language : String)
    (now : Nat) : IntentResult :=
  { intent := if supportedIntents.contains r.intent then r.intent else "unknown"
    confidence := max 0 (min 1 ((r.confidence).getD 0))
    entities := (r.entities).getD []
    sentiment := (r.sentiment).getD "neutral"
    originalText := takeS originalText 200
    language := language
    timestamp := now
    fallback := false }

/-- Keyword table of `fallbackIntentAnalysis`, in object-insertion order. -/
def fallbackKeywordMap : List (String × List String) :=
  [("greeting", ["bonjour", "bonsoir", "salut", "hello", "hi", "good morning", "good evening"]),
   ("help", ["aide", "aider", "help", "assistance", "support"]),
   ("create_ticket", ["problème", "bug", "erreur", "problem", "issue", "error"]),
   ("contact_agent", ["agent", "humain", "personne", "human", "person", "representative"]),
   ("goodbye", ["au revoir", "bye", "goodbye", "merci", "thank you"]),
   ("complaint", ["mécontent", "insatisfait", "nul", "mauvais", "unhappy", "bad", "terrible"])]

/-- First intent of the table one of whose keywords occurs in the
lower-cased text. -/
def fallbackFirstMatch (text : String) : Option String :=
  let lowerText := jsLowerS text
  (fallbackKeywordMap.find? (fun ik => ik.2.any (fun kw => containsS lowerText kw))).map
    (fun ik => ik.1)

/-- `fallbackIntentAnalysis(text, language)`: flat confidence 0.6 on a
keyword hit, otherwise `unknown` with confidence 0.1. -/
def fallbackIntentAnalysis (text language : String) (now : Nat) : IntentResult :=
  match fallbackFirstMatch text with
  | some intent =>
      { intent := intent, confidence := 3 / 5, entities := [], sentiment := "neutral"
        originalText := takeS text 200, language := language, timestamp := now
        fallback := true }
  | none =>
      { intent := "unknown", confidence := 1 / 10, entities := [], sentiment := "neutral"
        originalText := takeS text 200, language := language, timestamp := now
        fallback := true }

/-- NLP intent-cache TTL (seconds). -/
def nlpCacheTTL : Nat := 1800

def intentCacheKey (text language : String) : String :=
  "nlp:intent:" ++ hashText text ++ ":" ++ language

/-- `analyzeIntent(text, language)` over an explicit cache.  Returns the
result (or the propagated error), the cache afterwards, and how many
hosted-model invocations the call performed.  A quota / rate-limit error
is re-thrown as a typed 503 `OpenAIError`; every other failure (parse
errors included) degrades to `fallbackIntentAnalysis`, which is not
cached. -/
def analyzeIntent (cache : Cache IntentResult) (now : Nat) (outcome : ModelOutcome)
    (text language : String) :
    Except SvcError IntentResult × Cache IntentResult × Nat :=
  let cacheKey := intentCacheKey text language
  match cacheGet cache cacheKey now with
  | some cachedResult => (.ok cachedResult, cache, 0)
  | none =>
      match outcome with
      | .success out =>
          let normalizedResult := normalizeIntentResult out text language now
          (.ok normalizedResult, cacheSet cache cacheKey normalizedResult nlpCacheTTL now, 1)
      | .parseFailure => (.ok (fallbackIntentAnalysis text language now), cache, 1)
      | .apiFailure code =>
          if code = .insufficientQuota ∨ code = .rateLimitExceeded then
            (.error (.openAI "Service IA temporairement indisponible" 503), cache, 1)
          else
            (.ok (fallbackIntentAnalysis text language now), cache, 1)

/-! ## KnowledgeBaseService (src/services/knowledgeBaseService.js) -/

structure KBEntry where
  id : Nat
  question : String
  answer : String
  category : String
  language : String
  keywords : List String
  usageCount : Nat
  isActive : Bool
deriving Repr, DecidableEq

structure KBResult where
  id : Nat
  question : String
  answer : String
  category : String
  confidence : Rat
  source : String
deriving Repr, DecidableEq

/-- Insert while keeping keys in descending order; equal keys keep the
existing element first (the database's tie order is unspecified). -/
def insertByDesc {κ : Type} [LinearOrder κ] (key : α → κ) (x : α) : List α → List α
  | [] => [x]
  | y :: ys => if key x > key y then x :: y :: ys else y :: insertByDesc key x ys

/-- Descending sort by `key` (models `orderBy ... desc` / `sort((a, b) => b - a)`). -/
def sortByDesc {κ : Type} [LinearOrder κ] (key : α → κ) (l : List α) : List α :=
  l.foldr (insertByDesc key) []

/-- `calculateKeywordConfidence(query, queryWords, entry)`: weighted score
(exact substring 2, matching keyword 1 each, matching question word 0.5
each, usage bonus 0.2) over the theoretical max `queryWords.length + 2`,
capped at 1. -/
def calculateKeywordConfidence (query : String) (queryWords : List String)
    (entry : KBEntry) : Rat :=
  let maxScore : Rat := (queryWords.length : Rat) + 2
  let exactScore : Rat := if containsS (jsLowerS entry.question) query then 2 else 0
  let matchingKeywords :=
    queryWords.filter (fun word => entry.keywords.any (fun k => containsS (jsLowerS k) word))
  let questionWords := splitSpaces (jsLowerS entry.question)
  let matchingWords :=
    queryWords.filter (fun word => questionWords.any (fun qWord => containsS qWord word))
  let usageBonus : Rat := if entry.usageCount > 10 then 1 / 5 else 0
  let score := exactScore + (matchingKeywords.length : Rat)
      + (matchingWords.length : Rat) * (1 / 2) + usageBonus
  min (score / maxScore) 1

/-- `query.split(' ').filter(word => word.length > 2)`. -/
def kbQueryWords (query : String) : List String :=
  (splitSpaces query).filter (fun w => w.data.length > 2)

/-- The Prisma `where` clause of `searchByKeywords`: language, active,
case-insensitive question substring OR exact keyword overlap. -/
def kbKeywordFilter (query language : String) (queryWords : List String) :
    KBEntry → Bool := fun e =>
  e.language == language && e.isActive &&
    (containsS (jsLowerS e.question) (jsLowerS query) ||
     e.keywords.any (fun k => queryWords.contains k))

/-- The Prisma `where` clause of `searchSemantic`: language and active. -/
def kbActiveFilter (language : String) : KBEntry → Bool := fun e =>
  e.language == language && e.isActive

/-- `searchByKeywords(query, language, limit)`: filtered and usage-ordered
candidates, scored, thresholded at 0.3. -/
def searchByKeywords (store : List KBEntry) (query language : String)
    (lim : Nat) : List KBResult :=
  let queryWords := kbQueryWords query
  if queryWords.isEmpty then []
  else
    let entries :=
      (sortByDesc (fun e : KBEntry => e.usageCount)
        (store.filter (kbKeywordFilter query language queryWords))).take (lim * 2)
    let results := entries.map (fun e =>
      { id := e.id, question := e.question, answer := e.answer
        category := e.category
        confidence := calculateKeywordConfidence query queryWords e
        source := "keyword" : KBResult })
    (sortByDesc (fun r : KBResult => r.confidence)
      (results.filter (fun r => r.confidence > 3 / 10))).take lim

/-- `searchSemantic(query, language, limit)`: the hosted model's relevance
scores arrive as the `scores` oracle (`evaluateSemanticRelevance`), and
`nlpThrows` models the guarding `analyzeIntent` call raising (the whole
tier then returns `[]` through its catch). -/
def searchSemantic (store : List KBEntry) (scores : List Rat) (nlpThrows : Bool)
    (language : String) (lim : Nat) : List KBResult :=
  if nlpThrows then []
  else
    let entries :=
      (sortByDesc (fun e : KBEntry => e.usageCount)
        (store.filter (kbActiveFilter language))).take 20
    let results := entries.enum.map (fun ie =>
      { id := ie.2.id, question := ie.2.question, answer := ie.2.answer
        category := ie.2.category
        confidence := (scores.get? ie.1).getD 0
        source := "semantic" : KBResult })
    (sortByDesc (fun r : KBResult => r.confidence)
      (results.filter (fun r => r.confidence > 3 / 5))).take lim

def kbSearchCacheTTL : Nat := 1800

def kbSearchCacheKey (normalizedQuery language : String) (lim : Nat) : String :=
  "kb:search:" ++ hashText normalizedQuery ++ ":" ++ language ++ ":" ++ toString lim

/-- `KnowledgeBaseService.search(query, language, limit)`.  Every failure
path of the source (including the empty-query `ValidationError`) is caught
by the enclosing try/catch and becomes `none`; a cached empty list is
truthy in JS and also yields `none` via `results[0] || null`. -/
def kbSearch (store : List KBEntry) (cache : Cache (List KBResult)) (now : Nat)
    (scores : List Rat) (nlpThrows : Bool) (query language : String) (lim : Nat) :
    Cache (List KBResult) × Option KBResult :=
  if jsTrimS query = "" then (cache, none)
  else
    let normalizedQuery := jsLowerS (jsTrimS query)
    let cacheKey := kbSearchCacheKey normalizedQuery language lim
    match cacheGet cache cacheKey now with
    | some results => (cache, results.head?)
    | none =>
        let keywordResults := searchByKeywords store normalizedQuery language lim
        let semanticResults := searchSemantic store scores nlpThrows language lim
        let allResults :=
          (sortByDesc (fun r : KBResult => r.confidence)
            (keywordResults ++ semanticResults)).take lim
        match keywordResults.head? with
        | some k0 =>
            if k0.confidence > 4 / 5 then
              (cacheSet cache cacheKey keywordResults kbSearchCacheTTL now, some k0)
            else
              (cacheSet cache cacheKey allResults kbSearchCacheTTL now, allResults.head?)
        | none =>
            (cacheSet cache cacheKey allResults kbSearchCacheTTL now, allResults.head?)

/-! ## Conversation resolution (MessageProcessor.getOrCreateConversation) -/

structure Conversation where
  id : Nat
  userId : Nat
  status : String
  startedAt : Nat
  endedAt : Option Nat
deriving Repr, DecidableEq

/-- `findFirst({where: {userId, status: 'ACTIVE'}, orderBy: {startedAt: 'desc'}})`:
the active conversation with the greatest start time (ties resolved to the
earliest row, the database order being unspecified). -/
def findFirstActiveDesc (convs : List Conversation) (userId : Nat) : Option Conversation :=
  (convs.filter (fun c => c.userId == userId && c.status == "ACTIVE")).foldl
    (fun acc c =>
      match acc with
      | none => some c
      | some b => if c.startedAt > b.startedAt then some c else some b) none

/-- The row `conversation.create` inserts: status ACTIVE, `startedAt`
defaulting to `now()`; the `context: {}` column is not modelled. -/
def freshConversation (newId userId now : Nat) : Conversation :=
  { id := newId, userId := userId, status := "ACTIVE", startedAt := now, endedAt := none }

/-- `getOrCreateConversation(userId)`: reuse the active conversation unless
it exceeded `maxConversationDuration` seconds (then end it with
`endedAt = now` and create a fresh ACTIVE one).  Times in milliseconds. -/
def getOrCreateConversation (convs : List Conversation) (userId now newId
    maxConversationDuration : Nat) : List Conversation × Conversation :=
  let fresh : Conversation := freshConversation newId userId now
  match findFirstActiveDesc convs userId with
  | some conversation =>
      if (now : Int) - (conversation.startedAt : Int) > (maxConversationDuration : Int) * 1000 then
        let convs' := convs.map (fun c =>
          if c.id = conversation.id then { c with status := "ENDED", endedAt := some now } else c)
        (convs' ++ [fresh], fresh)
      else
        (convs, conversation)
  | none => (convs ++ [fresh], fresh)

/-- At most one ACTIVE conversation for `userId`. -/
def atMostOneActive (convs : List Conversation) (userId : Nat) : Prop :=
  (convs.filter (fun c => c.userId == userId && c.status == "ACTIVE")).length ≤ 1

/-! ## MessageLocalizationService (src/services/messageLocalizationService.js) -/

/-- Parameters interpolated into the message templates.  A `none` field
models an absent key (JS `undefined`). -/
structure LocParams where
  name : Option String := none
  ticketId : Option Nat := none
  title : Option String := none
  priority : Option String := none
  address : Option String := none
deriving Repr, DecidableEq

/-- JS `params.x || 'default'` (empty string is falsy). -/
def orParam (o : Option String) (d : String) : String :=
  match o with
  | some s => if s = "" then d else s
  | none => d

/-- Raw template interpolation (`undefined` when the key is absent). -/
def rawParam (o : Option String) : String := o.getD "undefined"

def rawParamNat (o : Option Nat) : String :=
  match o with
  | some n => toString n
  | none => "undefined"

def frMessages (p : LocParams) : List (String × String) :=
  [("greeting.morning", "Bonjour " ++ orParam p.name "cher client" ++ " ! Comment puis-je vous aider aujourd'hui ?"),
   ("greeting.afternoon", "Bon après-midi " ++ orParam p.name "cher client" ++ " ! Comment puis-je vous aider ?"),
   ("greeting.evening", "Bonsoir " ++ orParam p.name "cher client" ++ " ! Comment puis-je vous aider ce soir ?"),
   ("buttons.help", "Aide"),
   ("buttons.faq", "FAQ"),
   ("buttons.contact_agent", "Contacter un agent"),
   ("help.main_text", "Voici comment je peux vous aider :"),
   ("help.button_text", "Choisir une option"),
   ("help.tickets.title", "Gestion des tickets"),
   ("help.tickets.create", "Créer un ticket"),
   ("help.tickets.create_desc", "Signaler un problème ou faire une demande"),
   ("help.tickets.check", "Vérifier un ticket"),
   ("help.tickets.check_desc", "Suivre l'état de votre demande"),
   ("help.support.title", "Support client"),
   ("help.support.faq", "Questions fréquentes"),
   ("help.support.faq_desc", "Réponses aux questions courantes"),
   ("help.support.agent", "Parler à un agent"),
   ("help.support.agent_desc", "Être mis en relation avec un humain"),
   ("faq.main_text", "Voici les questions fréquemment posées. Que souhaitez-vous savoir ?"),
   ("faq.products", "Nos produits"),
   ("faq.support", "Support technique"),
   ("handoff.initiated", "Je vous mets en relation avec un agent humain. Veuillez patienter..."),
   ("error.general", "Désolé, une erreur s'est produite. Veuillez réessayer."),
   ("error.unknown_response_type", "Type de réponse non reconnu."),
   ("error.ai_unavailable", "Le service IA est temporairement indisponible."),
   ("fallback.message", "Je n'ai pas bien compris votre demande. Pouvez-vous reformuler ou choisir une option ci-dessous ?"),
   ("bot.introduction", "Je suis votre assistant virtuel. Je peux vous aider avec vos questions, créer des tickets de support, et vous mettre en relation avec nos agents si nécessaire."),
   ("bot.capabilities", "Je peux vous aider à :\n• Répondre à vos questions\n• Créer des tickets de support\n• Vous connecter avec un agent humain\n• Fournir des informations sur nos services"),
   ("goodbye.message", "Merci d'avoir utilisé notre service. N'hésitez pas à revenir si vous avez d'autres questions. Bonne journée !"),
   ("ticket.need_more_info", "Pour créer votre ticket, j'ai besoin de plus d'informations. Pouvez-vous décrire votre problème en détail ?"),
   ("ticket.created_success", "✅ Votre ticket #" ++ rawParamNat p.ticketId ++ " a été créé avec succès !\n\n📋 **Titre:** " ++ rawParam p.title ++ "\n🔥 **Priorité:** " ++ rawParam p.priority ++ "\n\nNous traiterons votre demande dans les plus brefs délais. Vous pouvez vérifier le statut en tapant \"statut ticket\"."),
   ("ticket.creation_error", "Désolé, une erreur s'est produite lors de la création de votre ticket. Veuillez réessayer ou contacter un agent."),
   ("ticket.no_tickets", "Vous n'avez aucun ticket en cours. Tapez \"créer un ticket\" pour signaler un problème."),
   ("ticket.status_header", "📋 **Vos tickets de support**"),
   ("ticket.priority", "Priorité"),
   ("ticket.created", "Créé le"),
   ("ticket.status_error", "Impossible de récupérer le statut de vos tickets. Veuillez réessayer plus tard."),
   ("media.image_received", "Image reçue. Comment puis-je vous aider avec cette image ?"),
   ("media.audio_received", "Message audio reçu. Pouvez-vous reformuler par écrit ?"),
   ("media.video_received", "Vidéo reçue. Comment puis-je vous aider ?"),
   ("media.document_received", "Document reçu. Comment puis-je vous aider avec ce document ?"),
   ("location.received", "📍 Position reçue: " ++ rawParam p.name ++ "\n📍 Adresse: " ++ rawParam p.address)]

def enMessages (p : LocParams) : List (String × String) :=
  [("greeting.morning", "Good morning " ++ orParam p.name "dear customer" ++ "! How can I help you today?"),
   ("greeting.afternoon", "Good afternoon " ++ orParam p.name "dear customer" ++ "! How can I help you?"),
   ("greeting.evening", "Good evening " ++ orParam p.name "dear customer" ++ "! How can I help you tonight?"),
   ("buttons.help", "Help"),
   ("buttons.faq", "FAQ"),
   ("buttons.contact_agent", "Contact agent"),
   ("help.main_text", "Here's how I can help you:"),
   ("help.button_text", "Choose an option"),
   ("help.tickets.title", "Ticket Management"),
   ("help.tickets.create", "Create a ticket"),
   ("help.tickets.create_desc", "Report an issue or make a request"),
   ("help.tickets.check", "Check a ticket"),
   ("help.tickets.check_desc", "Track the status of your request"),
   ("help.support.title", "Customer Support"),
   ("help.support.faq", "Frequently Asked Questions"),
   ("help.support.faq_desc", "Answers to common questions"),
   ("help.support.agent", "Talk to an agent"),
   ("help.support.agent_desc", "Connect with a human representative"),
   ("faq.main_text", "Here are frequently asked questions. What would you like to know?"),
   ("faq.products", "Our products"),
   ("faq.support", "Technical support"),
   ("handoff.initiated", "I'm connecting you with a human agent. Please wait..."),
   ("error.general", "Sorry, an error occurred. Please try again."),
   ("error.unknown_response_type", "Unknown response type."),
   ("error.ai_unavailable", "AI service is temporarily unavailable."),
   ("fallback.message", "I didn't understand your request. Could you rephrase or choose an option below?"),
   ("bot.introduction", "I am your virtual assistant. I can help you with your questions, create support tickets, and connect you with our agents when needed."),
   ("bot.capabilities", "I can help you with:\n• Answering your questions\n• Creating support tickets\n• Connecting you with human agents\n• Providing information about our services"),
   ("goodbye.message", "Thank you for using our service. Feel free to come back if you have any other questions. Have a great day!"),
   ("ticket.need_more_info", "To create your ticket, I need more information. Can you describe your problem in detail?"),
   ("ticket.created_success", "✅ Your ticket #" ++ rawParamNat p.ticketId ++ " has been created successfully!\n\n📋 **Title:** " ++ rawParam p.title ++ "\n🔥 **Priority:** " ++ rawParam p.priority ++ "\n\nWe will process your request as soon as possible. You can check the status by typing \"ticket status\"."),
   ("ticket.creation_error", "Sorry, an error occurred while creating your ticket. Please try again or contact an agent."),
   ("ticket.no_tickets", "You have no tickets in progress. Type \"create ticket\" to report a problem."),
   ("ticket.status_header", "📋 **Your support tickets**"),
   ("ticket.priority", "Priority"),
   ("ticket.created", "Created on"),
   ("ticket.status_error", "Unable to retrieve your ticket status. Please try again later."),
   ("media.image_received", "Image received. How can I help you with this image?"),
   ("media.audio_received", "Audio message received. Could you please rephrase in text?"),
   ("media.video_received", "Video received. How can I help you?"),
   ("media.document_received", "Document received. How can I help you with this document?"),
   ("location.received", "📍 Location received: " ++ rawParam p.name ++ "\n📍 Address: " ++ rawParam p.address)]

def locTable (p : LocParams) (language : String) : Option (List (String × String)) :=
  if language = "fr" then some (frMessages p)
  else if language = "en" then some (enMessages p)
  else none

/-- `getLocalizedMessage(key, language, params)`:
`messages[language]?.[key] || messages[defaultLanguage]?.[key] || key`
(no table value is the empty string, so `||` is option-fallback here). -/
def getLocalizedMessage (key language : String) (p : LocParams)
    (defaultLanguage : String) : String :=
  match (locTable p language).bind (fun t => List.lookup key t) with
  | some m => m
  | none =>
      match (locTable p defaultLanguage).bind (fun t => List.lookup key t) with
      | some m => m
      | none => key

/-- `getFallbackConversationalMessage(language)`. -/
def getFallbackConversationalMessage (language : String) : String :=
  if language = "fr" then
    "Je comprends que vous cherchez de l'aide, mais je n'ai pas pu saisir exactement votre demande. Voici quelques suggestions :\n\n• Essayez de reformuler votre question plus simplement\n• Utilisez des mots-clés comme \"aide\", \"problème\", ou \"information\"\n• Ou choisissez une option ci-dessous pour que je puisse mieux vous aider"
  else
    "I understand you're looking for help, but I couldn't quite grasp your request. Here are some suggestions:\n\n• Try rephrasing your question more simply\n• Use keywords like \"help\", \"problem\", or \"information\"\n• Or choose an option below so I can better assist you"

/-! ## Data records for users, sessions and responses -/

structure UserRec where
  id : Nat
  phoneNumber : String
  name : Option String
  language : String
deriving Repr, DecidableEq

/-- Free-form session context map, restricted to the keys the pipeline
writes (`none` models an absent key). -/
structure SessionContext where
  pendingHandoff : Option Bool := none
  handoffReason : Option String := none
  handoffTimestamp : Option Nat := none
  endedAt : Option Nat := none
deriving Repr, DecidableEq

/-- Cache-backed per-user session.  `status` is only ever added by
`handleGoodbye` (absent on creation). -/
structure Session where
  conversationId : Nat
  language : String
  context : SessionContext
  lastActivity : Nat
  status : Option String := none
deriving Repr, DecidableEq

structure Button where
  id : String
  title : String
deriving Repr, DecidableEq

structure ListRow where
  id : String
  title : String
  description : String
deriving Repr, DecidableEq

structure ListSection where
  title : String
  rows : List ListRow
deriving Repr, DecidableEq

/-- Outbound response union (`header`/`footer` are never set by the
handlers in scope and are omitted). -/
inductive Response where
  | text (content : String)
  | interactive (text : String) (buttons : List Button)
  | list (text : String) (buttonText : String) (sections : List ListSection)
deriving Repr, DecidableEq

/-! ## TicketService persistence operations -/

structure Ticket where
  id : Nat
  userId : Nat
  title : String
  description : String
  category : Option String
  priority : String
  status : String
  assignedAgent : Option String
  resolution : Option String
  createdAt : Nat
  updatedAt : Nat
  resolvedAt : Option Nat
deriving Repr, DecidableEq

def validStatuses : List String :=
  ["OPEN", "IN_PROGRESS", "WAITING_CUSTOMER", "RESOLVED", "CLOSED"]

/-- `CacheService.del(key)`. -/
def cacheDel (c : Cache α) (k : String) : Cache α :=
  c.filter (fun e => e.key ≠ k)

/-- `createTicket(userId, title, description, category, language)`:
validates non-empty title/description, auto-assigns priority and (for a
falsy category) category, inserts an OPEN ticket.  `newId`/`now` stand for
the generated id and the row timestamps. -/
def createTicket (store : List Ticket) (userId : Nat) (title description : String)
    (category : Option String) (language : String) (newId now : Nat) :
    List Ticket × Except SvcError Ticket :=
  if jsTrimS title = "" then
    (store, .error (.validation "Le titre du ticket est requis"))
  else if jsTrimS description = "" then
    (store, .error (.validation "La description du ticket est requise"))
  else
    let priority := determinePriority (title ++ " " ++ description) language
    let categoryVal :=
      match category with
      | some c => if c = "" then determineCategory (title ++ " " ++ description) language else c
      | none => determineCategory (title ++ " " ++ description) language
    let ticket : Ticket :=
      { id := newId, userId := userId, title := jsTrimS title
        description := jsTrimS description, category := some categoryVal
        priority := priority, status := "OPEN", assignedAgent := none
        resolution := none, createdAt := now, updatedAt := now, resolvedAt := none }
    (store ++ [ticket], .ok ticket)

/-- `updateTicketStatus(ticketId, newStatus, resolution, agentId)`: the
status is validated against the five enum values before any persistence
call; `resolvedAt` is stamped on RESOLVED/CLOSED.  A missing row surfaces
as the Prisma not-found error.  The returned store is unchanged on every
error path. -/
def updateTicketStatus (store : List Ticket) (ticketId : Nat) (newStatus : String)
    (resolution agentId : Option String) (now : Nat) :
    List Ticket × Except SvcError Ticket :=
  if ¬ validStatuses.contains newStatus then
    (store, .error (.validation ("Statut invalide: " ++ newStatus)))
  else
    match store.find? (fun t => t.id == ticketId) with
    | none => (store, .error (.notFound "Ticket non trouvé"))
    | some t =>
        let t' : Ticket :=
          { t with
            status := newStatus
            updatedAt := now
            resolution := match resolution with
              | some r => if r = "" then t.resolution else some r
              | none => t.resolution
            assignedAgent := match agentId with
              | some a => if a = "" then t.assignedAgent else some a
              | none => t.assignedAgent
            resolvedAt :=
              if newStatus = "RESOLVED" ∨ newStatus = "CLOSED" then some now
              else t.resolvedAt }
        (store.map (fun u => if u.id = ticketId then t' else u), .ok t')

def ticketCacheTTL : Nat := 300

def userTicketsCacheKey (userId : Nat) (status : Option String) (lim offset : Nat) : String :=
  "tickets:user:" ++ toString userId ++ ":" ++ status.getD "all" ++ ":"
    ++ toString lim ++ ":" ++ toString offset

/-- `getUserTickets(userId, status, limit, offset)` with its 5-minute cache. -/
def getUserTickets (store : List Ticket) (tcache : Cache (List Ticket)) (now : Nat)
    (userId : Nat) (status : Option String) (lim offset : Nat) :
    Cache (List Ticket) × List Ticket :=
  let key := userTicketsCacheKey userId status lim offset
  match cacheGet tcache key now with
  | some tickets => (tcache, tickets)
  | none =>
      let tickets :=
        (((sortByDesc (fun t : Ticket => t.createdAt)
          (store.filter (fun t =>
            t.userId == userId &&
            (match status with
             | some s => t.status == s
             | none => true)))).drop offset).take lim)
      (cacheSet tcache key tickets ticketCacheTTL now, tickets)

/-! ## MessageFormatter ticket rendering -/

def getStatusEmoji (status : String) : String :=
  if status = "OPEN" then "🔴"
  else if status = "IN_PROGRESS" then "🟡"
  else if status = "WAITING_CUSTOMER" then "🔵"
  else if status = "RESOLVED" then "🟢"
  else if status = "CLOSED" then "⚫"
  else "❓"

def getPriorityEmoji (priority : String) : String :=
  if priority = "LOW" then "🟢"
  else if priority = "NORMAL" then "🟡"
  else if priority = "HIGH" then "🟠"
  else if priority = "URGENT" then "🔴"
  else "⚪"

/-- One block of `formatTicketList`'s forEach body.  `fmtDate` stands for
`toLocaleDateString` (ICU-dependent, supplied by the environment). -/
def formatTicketEntry (t : Ticket) (language : String) (defaultLanguage : String)
    (fmtDate : Nat → String) (isLast : Bool) : String :=
  getStatusEmoji t.status ++ " *Ticket #" ++ toString t.id ++ "*\n"
    ++ "📋 " ++ t.title ++ "\n"
    ++ getPriorityEmoji t.priority ++ " "
    ++ getLocalizedMessage "ticket.priority" language {} defaultLanguage ++ ": " ++ t.priority ++ "\n"
    ++ "📅 " ++ getLocalizedMessage "ticket.created" language {} defaultLanguage ++ ": "
    ++ fmtDate t.createdAt ++ "\n"
    ++ (if isLast then "" else "\n---\n\n")

def formatTicketListAux (language defaultLanguage : String) (fmtDate : Nat → String) :
    List Ticket → String
  | [] => ""
  | [t] => formatTicketEntry t language defaultLanguage fmtDate true
  | t :: t2 :: rest =>
      formatTicketEntry t language defaultLanguage fmtDate false
        ++ formatTicketListAux language defaultLanguage fmtDate (t2 :: rest)

/-- `formatTicketList(tickets, language, localizationService)`. -/
def formatTicketList (tickets : List Ticket) (language defaultLanguage : String)
    (fmtDate : Nat → String) : String :=
  if tickets.isEmpty then
    getLocalizedMessage "ticket.no_tickets" language {} defaultLanguage
  else
    getLocalizedMessage "ticket.status_header" language {} defaultLanguage ++ "\n\n"
      ++ formatTicketListAux language defaultLanguage fmtDate tickets

/-- `formatTicketConfirmation(ticket, language, localizationService)`. -/
def formatTicketConfirmation (t : Ticket) (language defaultLanguage : String) : String :=
  getLocalizedMessage "ticket.created_success" language
    { ticketId := some t.id, title := some t.title, priority := some t.priority }
    defaultLanguage

/-! ## IntentHandler (src/services/intentHandler.js) -/

def autoHandoffKeywordsDefault : List String := ["agent", "humain", "personne", "help", "aide"]

/-- `shouldTransferToHuman(text, language)` — the language parameter is
accepted but unused, exactly as in the source. -/
def shouldTransferToHuman (keywords : List String) (text language : String) : Bool :=
  keywords.any (fun keyword => containsS (jsLowerS text) (jsLowerS keyword))

/-- `initiateHumanHandoff(user, session, originalText)`: marks the session
context for handoff and returns the localized handoff message. -/
def initiateHumanHandoff (user : UserRec) (session : Session) (originalText : String)
    (now : Nat) (defaultLanguage : String) : Session × Response :=
  ({ session with
      context :=
        { session.context with
            pendingHandoff := some true
            handoffReason := some originalText
            handoffTimestamp := some now } },
   .text (getLocalizedMessage "handoff.initiated" user.language {} defaultLanguage))

/-- `handleGoodbye(user, session)`: sets `session.status = 'ENDED'` and
`session.context.endedAt = Date.now()`; no other state is touched. -/
def handleGoodbye (user : UserRec) (session : Session) (now : Nat)
    (defaultLanguage : String) : Session × Response :=
  ({ session with
      status := some "ENDED"
      context := { session.context with endedAt := some now } },
   .text (getLocalizedMessage "goodbye.message" user.language {} defaultLanguage))

def getTimeOfDay (hour : Nat) : String :=
  if hour < 12 then "morning" else if hour < 18 then "afternoon" else "evening"

def handleGreeting (user : UserRec) (hour : Nat) (defaultLanguage : String) : Response :=
  let greeting := getLocalizedMessage ("greeting." ++ getTimeOfDay hour) user.language
    { name := some (orParam user.name "cher client") } defaultLanguage
  .interactive greeting
    [{ id := "help", title := getLocalizedMessage "buttons.help" user.language {} defaultLanguage },
     { id := "faq", title := getLocalizedMessage "buttons.faq" user.language {} defaultLanguage },
     { id := "contact_agent",
       title := getLocalizedMessage "buttons.contact_agent" user.language {} defaultLanguage }]

def handleHelp (user : UserRec) (defaultLanguage : String) : Response :=
  let loc := fun k => getLocalizedMessage k user.language {} defaultLanguage
  .list (loc "help.main_text") (loc "help.button_text")
    [{ title := loc "help.tickets.title"
       rows :=
        [{ id := "create_ticket", title := loc "help.tickets.create"
           description := loc "help.tickets.create_desc" },
         { id := "check_ticket", title := loc "help.tickets.check"
           description := loc "help.tickets.check_desc" }] },
     { title := loc "help.support.title"
       rows :=
        [{ id := "faq", title := loc "help.support.faq"
           description := loc "help.support.faq_desc" },
         { id := "contact_agent", title := loc "help.support.agent"
           description := loc "help.support.agent_desc" }] }]

/-- `generateAIResponse(text, language)`: the raw completion text arrives
as `rawModel` (`none` = the API call threw and was caught); responses that
are very unhelpful or shorter than 15 characters become `null`.  The text
and language only shape the prompt and do not affect the result shape. -/
def generateAIResponse (rawModel : Option String) (text language : String) : Option String :=
  match rawModel with
  | none => none
  | some raw =>
      let aiResponse := jsTrimS raw
      let veryUnhelpfulPhrases :=
        ["je ne peux pas vous aider", "i cannot help you",
         "je ne sais pas du tout", "i have no idea",
         "je ne comprends pas votre question", "i don't understand your question"]
      let isVeryUnhelpful := veryUnhelpfulPhrases.any
        (fun phrase => containsS (jsLowerS aiResponse) (jsLowerS phrase))
      if isVeryUnhelpful ∨ aiResponse.data.length < 15 then none else some aiResponse

def getFallbackResponse (user : UserRec) (defaultLanguage : String) : Response :=
  .interactive (getFallbackConversationalMessage user.language)
    [{ id := "help", title := getLocalizedMessage "buttons.help" user.language {} defaultLanguage },
     { id := "faq", title := getLocalizedMessage "buttons.faq" user.language {} defaultLanguage },
     { id := "contact_agent",
       title := getLocalizedMessage "buttons.contact_agent" user.language {} defaultLanguage }]

def faqMenu (user : UserRec) (defaultLanguage : String) : Response :=
  .interactive (getLocalizedMessage "faq.main_text" user.language {} defaultLanguage)
    [{ id := "faq_products", title := getLocalizedMessage "faq.products" user.language {} defaultLanguage },
     { id := "faq_support", title := getLocalizedMessage "faq.support" user.language {} defaultLanguage },
     { id := "contact_agent",
       title := getLocalizedMessage "buttons.contact_agent" user.language {} defaultLanguage }]

/-- `handleFAQ(user, session, entities, originalText)`. -/
def handleFAQ (kb : List KBEntry) (kbCache : Cache (List KBResult)) (now : Nat)
    (scores : List Rat) (nlpThrows : Bool) (user : UserRec) (originalText : String)
    (defaultLanguage : String) : Cache (List KBResult) × Response :=
  if originalText ≠ "" then
    let r := kbSearch kb kbCache now scores nlpThrows originalText user.language 5
    match r.2 with
    | some kbResult =>
        if kbResult.confidence > 1 / 2 then (r.1, .text kbResult.answer)
        else (r.1, faqMenu user defaultLanguage)
    | none => (r.1, faqMenu user defaultLanguage)
  else (kbCache, faqMenu user defaultLanguage)

/-! ## TicketMessageHandler intent entry points -/

/-- `handleCreateTicket(user, session, entities, originalText)`.  The
successful `createTicket` call invalidates the user's base ticket-cache
key from inside `TicketService.createTicket`. -/
def tmhHandleCreateTicket (tickets : List Ticket) (tcache : Cache (List Ticket))
    (user : UserRec) (originalText : String) (newId now : Nat)
    (defaultLanguage : String) :
    (List Ticket × Cache (List Ticket)) × Response :=
  let ticketInfo := extractTicketInfo originalText user.language
  if ticketInfo.title = "" ∨ ticketInfo.description = "" then
    ((tickets, tcache),
     .text (getLocalizedMessage "ticket.need_more_info" user.language {} defaultLanguage))
  else
    match createTicket tickets user.id ticketInfo.title ticketInfo.description
        ticketInfo.category user.language newId now with
    | (store', .ok t) =>
        ((store', cacheDel tcache ("tickets:user:" ++ toString user.id)),
         .text (formatTicketConfirmation t user.language defaultLanguage))
    | (store', .error _) =>
        ((store', tcache),
         .text (getLocalizedMessage "ticket.creation_error" user.language {} defaultLanguage))

/-- `handleCheckTicketStatus(user, session, entities)`. -/
def tmhHandleCheckTicketStatus (tickets : List Ticket) (tcache : Cache (List Ticket))
    (now : Nat) (user : UserRec) (defaultLanguage : String) (fmtDate : Nat → String) :
    Cache (List Ticket) × Response :=
  let r := getUserTickets tickets tcache now user.id none 5 0
  if r.2.isEmpty then
    (r.1, .text (getLocalizedMessage "ticket.no_tickets" user.language {} defaultLanguage))
  else
    (r.1, .text (formatTicketList r.2 user.language defaultLanguage fmtDate))

/-! ## MessageProcessor text pipeline (src/services/messageProcessor.js,
delegating version) -/

/-- Environment of one `processTextMessage` call: configuration plus the
outcome of each external call the pipeline may make. -/
structure PTEnv where
  now : Nat
  hour : Nat
  newTicketId : Nat
  aiRaw : Option String
  kbScores : List Rat
  kbNlpThrows : Bool
  defaultLanguage : String
  supportedLanguages : List String
  handoffKeywords : List String
  confidenceThreshold : Rat
  knowledgeBaseThreshold : Rat
  detectOutcome : Option String
  intentOutcome : ModelOutcome
  fmtDate : Nat → String

/-- Mutable state visible to one `processTextMessage` call. -/
structure PState where
  users : List UserRec
  conversations : List Conversation
  tickets : List Ticket
  ticketCache : Cache (List Ticket)
  kb : List KBEntry
  kbCache : Cache (List KBResult)
  nlpCache : Cache IntentResult

/-- Language-detection step of `processTextMessage`: a confidently detected
supported language different from the stored one updates the User row and
is used for the rest of the turn. -/
def applyDetectedLanguage (env : PTEnv) (st : PState) (user : UserRec) :
    PState × UserRec :=
  match env.detectOutcome with
  | some detected =>
      if env.supportedLanguages.contains detected ∧ detected ≠ user.language then
        ({ st with users := (st.users.map
            (fun u => if u.id = user.id then { u with language := detected } else u)) },
         { user with language := detected })
      else (st, user)
  | none => (st, user)

/-- `IntentHandler.handleIntent(nlpResult, user, session, originalText)`. -/
def handleIntent (env : PTEnv) (st : PState) (nlpResult : IntentResult)
    (user : UserRec) (session : Session) (originalText : String) :
    PState × Session × Response :=
  let lower := jsLowerS originalText
  let aiAttemptElse := fun (fallbackResp : Response) =>
    match generateAIResponse env.aiRaw originalText user.language with
    | some a =>
        if a.data.length > 10 then (st, session, Response.text a)
        else (st, session, fallbackResp)
    | none => (st, session, fallbackResp)
  if nlpResult.intent = "greeting" then
    (st, session, handleGreeting user env.hour env.defaultLanguage)
  else if nlpResult.intent = "help" then
    if containsS lower "qui tu es" ∨ containsS lower "qui es-tu" ∨
        containsS lower "who are you" ∨ containsS lower "what are you" then
      (st, session, .text (getLocalizedMessage "bot.introduction" user.language {} env.defaultLanguage))
    else
      aiAttemptElse (handleHelp user env.defaultLanguage)
  else if nlpResult.intent = "create_ticket" then
    let r := tmhHandleCreateTicket st.tickets st.ticketCache user originalText
      env.newTicketId env.now env.defaultLanguage
    ({ st with tickets := r.1.1, ticketCache := r.1.2 }, session, r.2)
  else if nlpResult.intent = "check_ticket_status" then
    let r := tmhHandleCheckTicketStatus st.tickets st.ticketCache env.now user
      env.defaultLanguage env.fmtDate
    ({ st with ticketCache := r.1 }, session, r.2)
  else if nlpResult.intent = "faq" then
    let r := handleFAQ st.kb st.kbCache env.now env.kbScores env.kbNlpThrows user
      originalText env.defaultLanguage
    ({ st with kbCache := r.1 }, session, r.2)
  else if nlpResult.intent = "contact_agent" then
    let r := initiateHumanHandoff user session originalText env.now env.defaultLanguage
    (st, r.1, r.2)
  else if nlpResult.intent = "goodbye" then
    let r := handleGoodbye user session env.now env.defaultLanguage
    (st, r.1, r.2)
  else if nlpResult.intent = "technical_support" then
    aiAttemptElse (getFallbackResponse user env.defaultLanguage)
  else if nlpResult.intent = "product_inquiry" then
    if containsS lower "que peux-tu faire" ∨ containsS lower "tes capacités" ∨
        containsS lower "what can you do" ∨ containsS lower "capabilities" then
      (st, session, .text (getLocalizedMessage "bot.capabilities" user.language {} env.defaultLanguage))
    else
      aiAttemptElse (getFallbackResponse user env.defaultLanguage)
  else
    aiAttemptElse (getFallbackResponse user env.defaultLanguage)

/-- `processTextMessage(messageData, user, session)`.  The last component
counts the calls made to `NLPService.analyzeIntent` (the intent
classifier); a propagated classifier error becomes the `Except.error`
case, which the enclosing `processIncomingMessage` catch converts to the
generic error message. -/
def processTextMessage (env : PTEnv) (st : PState) (user : UserRec)
    (session : Session) (text : String) :
    PState × UserRec × Except SvcError (Session × Response) × Nat :=
  let d := applyDetectedLanguage env st user
  let st := d.1
  let user := d.2
  if shouldTransferToHuman env.handoffKeywords text user.language then
    let r := initiateHumanHandoff user session text env.now env.defaultLanguage
    (st, user, .ok (r.1, r.2), 0)
  else
    let a := analyzeIntent st.nlpCache env.now env.intentOutcome text user.language
    let st := { st with nlpCache := a.2.1 }
    match a.1 with
    | .error e => (st, user, .error e, 1)
    | .ok nlpResult =>
        if nlpResult.confidence ≥ env.confidenceThreshold then
          let r := handleIntent env st nlpResult user session text
          (r.1, user, .ok (r.2.1, r.2.2), 1)
        else
          let k := kbSearch st.kb st.kbCache env.now env.kbScores env.kbNlpThrows
            text user.language 5
          let st := { st with kbCache := k.1 }
          let aiAttempt :=
            match generateAIResponse env.aiRaw text user.language with
            | some a2 =>
                if a2.data.length > 10 then (st, user, Except.ok (session, Response.text a2), 1)
                else (st, user, Except.ok (session, getFallbackResponse user env.defaultLanguage), 1)
            | none => (st, user, Except.ok (session, getFallbackResponse user env.defaultLanguage), 1)
          match k.2 with
          | some kbResult =>
              if kbResult.confidence > env.knowledgeBaseThreshold then
                (st, user, .ok (session, .text kbResult.answer), 1)
              else aiAttempt
          | none => aiAttempt

/-! ## Concrete test fixtures

Rational constants in fixtures are given in normalised `num`/`den` form so
that concrete runs reduce inside the kernel. -/

def c3User : UserRec :=
  { id := 7, phoneNumber := "+221700000001", name := some "Ada", language := "fr" }

def c3Session : Session :=
  { conversationId := 1, language := "fr", context := {}, lastActivity := 0, status := none }

/-- Environment whose classifier outcome is a confident `goodbye`. -/
def c3Env : PTEnv :=
  { now := 1000, hour := 10, newTicketId := 99, aiRaw := none, kbScores := []
    kbNlpThrows := false, defaultLanguage := "fr", supportedLanguages := ["fr", "en"]
    handoffKeywords := ["agent", "humain", "personne"]
    confidenceThreshold := { num := 1, den := 2 }
    knowledgeBaseThreshold := { num := 2, den := 5 }, detectOutcome := none
    intentOutcome := .success
      { intent := "goodbye", confidence := some { num := 9, den := 10 }, entities := some []
        sentiment := some "neutral" }
    fmtDate := fun _ => "" }

/-- State holding one ACTIVE conversation for user 7. -/
def c3State : PState :=
  { users := [c3User], conversations := [Conversation.mk 1 7 "ACTIVE" 0 none]
    tickets := [], ticketCache := [], kb := [], kbCache := [], nlpCache := [] }

def c4User : UserRec :=
  { id := 8, phoneNumber := "+221700000002", name := none, language := "en" }

def c4Session : Session :=
  { conversationId := 2, language := "en", context := {}, lastActivity := 0, status := none }

def c4Env : PTEnv :=
  { now := 1000, hour := 15, newTicketId := 99, aiRaw := none, kbScores := []
    kbNlpThrows := false, defaultLanguage := "fr", supportedLanguages := ["fr", "en"]
    handoffKeywords := autoHandoffKeywordsDefault
    confidenceThreshold := { num := 1, den := 2 }
    knowledgeBaseThreshold := { num := 2, den := 5 }, detectOutcome := none
    intentOutcome := .apiFailure .other
    fmtDate := fun _ => "" }

def c4State : PState :=
  { users := [c4User], conversations := [], tickets := [], ticketCache := []
    kb := [], kbCache := [], nlpCache := [] }

def c5Out : ParsedModelOutput :=
  { intent := "greeting", confidence := some { num := 9, den := 10 }
    entities := some [], sentiment := some "positive" }

def c6Ticket : Ticket :=
  { id := 1, userId := 7, title := "Site down", description := "The site is down"
    category := some "technique", priority := "URGENT", status := "OPEN"
    assignedAgent := none, resolution := none, createdAt := 0, updatedAt := 0
    resolvedAt := none }

/-! ## Helper lemmas -/

set_option maxRecDepth 1000000

theorem filter_singleton_of_le_one {α : Type} {l : List α} {p : α → Bool} {a : α}
    (h1 : (l.filter p).length ≤ 1) (ha : a ∈ l) (hpa : p a = true) :
    l.filter p = [a] := by
  have hmem : a ∈ l.filter p := List.mem_filter.mpr ⟨ha, hpa⟩
  match hfa : l.filter p with
  | [] => rw [hfa] at hmem; cases hmem
  | [x] =>
      rw [hfa] at hmem
      simp only [List.mem_singleton] at hmem
      rw [hmem]
  | x :: y :: tl => rw [hfa] at h1; simp at h1

theorem string_mk_ne_empty {l : List Char} (h : l ≠ []) : String.mk l ≠ "" := by
  intro hcon
  exact h (by simpa using congrArg String.data hcon)

theorem truncateText_ne_empty {s : String} (h : s ≠ "") (n : Nat) :
    truncateText s n ≠ "" := by
  unfold truncateText
  split
  · exact h
  · intro hcon
    have := congrArg String.data hcon
    simp [String.data_append] at this

theorem ticketParts_ne_empty {content p : String} (h : p ∈ ticketParts content) :
    p ≠ "" := by
  unfold ticketParts at h
  rcases List.mem_map.mp h with ⟨l, hl, rfl⟩
  have hlen := List.of_mem_filter hl
  refine string_mk_ne_empty ?_
  intro hnil
  rw [hnil] at hlen
  simp at hlen

theorem joinSpace_cons_ne_nil {x : List Char} (hx : x ≠ []) (rest : List (List Char)) :
    joinSpace (x :: rest) ≠ [] := by
  cases rest
  · simpa [joinSpace] using hx
  · simp [joinSpace]

theorem defaultTicketTitle_ne_empty (l : String) : defaultTicketTitle l ≠ "" := by
  unfold defaultTicketTitle
  by_cases h : l = "fr" <;> simp [h]

theorem generateTitleFromText_ne_empty (t l : String) :
    generateTitleFromText t l ≠ "" := by
  unfold generateTitleFromText
  by_cases h0 : t = ""
  · simp [h0, defaultTicketTitle_ne_empty]
  · simp only [h0, if_false]
    by_cases h1 : (joinSpace (List.take 8 (splitBy (fun c => c = ' ') t.data))).length > 50
    · simp only [h1, if_true]
      have hne : (List.take 47 (joinSpace (List.take 8 (splitBy (fun c => c = ' ') t.data)))
          ++ "...".data) ≠ [] := by simp
      have hie : (List.take 47 (joinSpace (List.take 8 (splitBy (fun c => c = ' ') t.data)))
          ++ "...".data).isEmpty = false := by
        simp [List.isEmpty_iff]
      simp only [hie, Bool.false_eq_true, if_false]
      exact string_mk_ne_empty hne
    · simp only [h1, if_false]
      by_cases h2 : (joinSpace (List.take 8 (splitBy (fun c => c = ' ') t.data))).isEmpty = true
      · simp only [h2, if_true]
        exact defaultTicketTitle_ne_empty l
      · simp only [h2, if_false]
        exact string_mk_ne_empty (by simpa [List.isEmpty_iff] using h2)

theorem kb_filter_nil {store : List KBEntry} {language : String}
    (hempty : ∀ e ∈ store, ¬(e.language = language ∧ e.isActive = true))
    (p : KBEntry → Bool) (himp : ∀ e, p e = true → e.language = language ∧ e.isActive = true) :
    store.filter p = [] := by
  rw [List.filter_eq_nil_iff]
  intro e he hpe
  exact hempty e he (himp e hpe)

theorem searchByKeywords_nil {store : List KBEntry} {language : String}
    (hempty : ∀ e ∈ store, ¬(e.language = language ∧ e.isActive = true))
    (query : String) (lim : Nat) :
    searchByKeywords store query language lim = [] := by
  unfold searchByKeywords
  by_cases hqw : (kbQueryWords query).isEmpty
  · simp [hqw]
  · have hf : store.filter (kbKeywordFilter query language (kbQueryWords query)) = [] := by
      refine kb_filter_nil hempty _ ?_
      intro e hpe
      unfold kbKeywordFilter at hpe
      simp only [Bool.and_eq_true, beq_iff_eq] at hpe
      exact ⟨hpe.1.1, hpe.1.2⟩
    simp [hqw, hf, sortByDesc]

theorem searchSemantic_nil {store : List KBEntry} {language : String}
    (hempty : ∀ e ∈ store, ¬(e.language = language ∧ e.isActive = true))
    (scores : List Rat) (nlpThrows : Bool) (lim : Nat) :
    searchSemantic store scores nlpThrows language lim = [] := by
  unfold searchSemantic
  by_cases ht : nlpThrows
  · simp [ht]
  · have hf : store.filter (kbActiveFilter language) = [] := by
      refine kb_filter_nil hempty _ ?_
      intro e hpe
      unfold kbActiveFilter at hpe
      simp only [Bool.and_eq_true, beq_iff_eq] at hpe
      exact hpe
    simp [ht, hf, sortByDesc]

/-! ## Claim theorems -/

/-- C1: for a user with at most one ACTIVE conversation (distinct row ids,
fresh new id), `getOrCreateConversation` preserves the at-most-one-ACTIVE
invariant; when the existing ACTIVE conversation is older than
`maxConversationDuration` seconds it is transitioned to ENDED with end
timestamp `now` before the new ACTIVE conversation is created, and when it
is unexpired no conversation is created at all (the store is returned
unchanged and the existing row is reused). -/
theorem c1_conversation (convs : List Conversation) (userId now newId maxDur : Nat)
    (hone : atMostOneActive convs userId) :
    atMostOneActive (getOrCreateConversation convs userId now newId maxDur).1 userId ∧
    (∀ c ∈ convs, c.userId = userId → c.status = "ACTIVE" →
      (((now : Int) - (c.startedAt : Int) > (maxDur : Int) * 1000 →
          (∃ c' ∈ (getOrCreateConversation convs userId now newId maxDur).1,
            c'.id = c.id ∧ c'.status = "ENDED" ∧ c'.endedAt = some now) ∧
          (getOrCreateConversation convs userId now newId maxDur).2 =
            freshConversation newId userId now) ∧
       ((now : Int) - (c.startedAt : Int) ≤ (maxDur : Int) * 1000 →
          (getOrCreateConversation convs userId now newId maxDur).1 = convs ∧
          (getOrCreateConversation convs userId now newId maxDur).2 = c))) := by
  classical
  set p := fun c : Conversation => c.userId == userId && c.status == "ACTIVE" with hp
  have hact : ∀ c ∈ convs, c.userId = userId → c.status = "ACTIVE" →
      convs.filter p = [c] := by
    intro c hc h1 h2
    exact filter_singleton_of_le_one hone hc (by simp [hp, h1, h2])
  rcases hflt : convs.filter p with _ | ⟨c0, tl⟩
  · have hff : findFirstActiveDesc convs userId = none := by
      unfold findFirstActiveDesc
      rw [← hp, hflt]
      rfl
    have hres : getOrCreateConversation convs userId now newId maxDur =
        (convs ++ [freshConversation newId userId now],
         freshConversation newId userId now) := by
      unfold getOrCreateConversation
      rw [hff]
    constructor
    · unfold atMostOneActive
      rw [hres, List.filter_append, ← hp, hflt]
      simpa using le_trans (List.length_filter_le _ _) (by simp)
    · intro c hc h1 h2
      have := hact c hc h1 h2
      rw [hflt] at this
      cases this
  · have htl : tl = [] := by
      have := hone
      unfold atMostOneActive at this
      rw [← hp] at this
      rw [hflt] at this
      simpa using this
    subst htl
    have hff : findFirstActiveDesc convs userId = some c0 := by
      unfold findFirstActiveDesc
      rw [← hp, hflt]
      rfl
    have hc0mem : c0 ∈ convs ∧ p c0 = true := by
      have : c0 ∈ convs.filter p := by rw [hflt]; exact List.mem_singleton_self c0
      exact ⟨List.mem_of_mem_filter this, List.of_mem_filter this⟩
    have huniqc : ∀ c ∈ convs, c.userId = userId → c.status = "ACTIVE" → c = c0 := by
      intro c hc h1 h2
      have h := hact c hc h1 h2
      rw [hflt] at h
      have : c ∈ convs.filter p := List.mem_filter.mpr ⟨hc, by simp [hp, h1, h2]⟩
      rw [hflt] at this
      simpa using this
    by_cases hstale : (now : Int) - (c0.startedAt : Int) > (maxDur : Int) * 1000
    · have hres : getOrCreateConversation convs userId now newId maxDur =
          ((convs.map (fun c =>
            if c.id = c0.id then { c with status := "ENDED", endedAt := some now } else c))
            ++ [freshConversation newId userId now],
           freshConversation newId userId now) := by
        unfold getOrCreateConversation
        rw [hff]
        simp only [hstale, if_pos]
      constructor
      · unfold atMostOneActive
        rw [hres]
        rw [List.filter_append]
        have hmapnil : (convs.map (fun c =>
            if c.id = c0.id then { c with status := "ENDED", endedAt := some now }
            else c)).filter p = [] := by
          rw [List.filter_eq_nil_iff]
          intro a ha
          rcases List.mem_map.mp ha with ⟨d, hd, hda⟩
          by_cases hdid : d.id = c0.id
          · rw [if_pos hdid] at hda
            rw [← hda]
            simp [hp]
          · rw [if_neg hdid] at hda
            subst hda
            intro hpd
            have h1 : d.userId = userId := by simp [hp] at hpd; exact hpd.1
            have h2 : d.status = "ACTIVE" := by simp [hp] at hpd; exact hpd.2
            exact hdid (by rw [huniqc d hd h1 h2])
        rw [hmapnil]
        simpa using le_trans (List.length_filter_le _ _) (by simp)
      · intro c hc h1 h2
        have hcc0 : c = c0 := huniqc c hc h1 h2
        subst hcc0
        constructor
        · intro _
          refine ⟨⟨{ c with status := "ENDED", endedAt := some now }, ?_, rfl, rfl, rfl⟩, ?_⟩
          · rw [hres]
            refine List.mem_append_left _ ?_
            have : (fun d => if d.id = c.id then { d with status := "ENDED", endedAt := some now }
                else d) c = { c with status := "ENDED", endedAt := some now } := by
              simp
            rw [← this]
            exact List.mem_map_of_mem _ hc
          · rw [hres]
        · intro hle
          exact absurd hstale (not_lt.mpr hle)
    · have hres : getOrCreateConversation convs userId now newId maxDur = (convs, c0) := by
        unfold getOrCreateConversation
        rw [hff]
        simp only [hstale, if_neg, if_false]
      constructor
      · rw [hres]
        exact hone
      · intro c hc h1 h2
        have hcc0 : c = c0 := huniqc c hc h1 h2
        subst hcc0
        constructor
        · intro hgt
          exact absurd hgt hstale
        · intro _
          rw [hres]
          exact ⟨rfl, rfl⟩

/-- C1 witness: user 7 has one ACTIVE conversation started at time 0;
resolving at time 3600001 ms with a 3600 s limit ends it (end timestamp
set) and returns a fresh ACTIVE conversation, keeping the invariant. -/
theorem c1_conversation_witness :
    atMostOneActive (getOrCreateConversation [Conversation.mk 1 7 "ACTIVE" 0 none]
      7 3600001 2 3600).1 7 ∧
    (∃ c' ∈ (getOrCreateConversation [Conversation.mk 1 7 "ACTIVE" 0 none]
        7 3600001 2 3600).1,
      c'.id = 1 ∧ c'.status = "ENDED" ∧ c'.endedAt = some 3600001) ∧
    (getOrCreateConversation [Conversation.mk 1 7 "ACTIVE" 0 none] 7 3600001 2 3600).2 =
      freshConversation 2 7 3600001 := by
  have h := c1_conversation [Conversation.mk 1 7 "ACTIVE" 0 none] 7 3600001 2 3600
    (by unfold atMostOneActive; decide)
  have h2 := (h.2 (Conversation.mk 1 7 "ACTIVE" 0 none) (by simp) rfl rfl).1 (by norm_num)
  exact ⟨h.1, h2.1, h2.2⟩

/-- C2 counterexample: a hosted-model failure whose error code is
`insufficient_quota` is re-thrown by `analyzeIntent` as a typed 503
service-unavailable error instead of returning the keyword fallback —
refuting the claim that intent analysis never propagates an error
(quota/rate-limit errors included) to its caller. -/
theorem c2_quota_counterexample :
    (analyzeIntent [] 0 (.apiFailure .insufficientQuota) "hello" "fr").1 =
      .error (.openAI "Service IA temporairement indisponible" 503) := rfl

/-- C2 (amended): on a cache miss, `analyzeIntent` returns the local
keyword-table fallback for every hosted-model failure except
quota/rate-limit errors, and for JSON-parse failures; the fallback result
(a total function — it never throws) carries confidence exactly 0.6 with
the first matching keyword's intent, or intent `unknown` with confidence
0.1 when nothing matches. -/
theorem c2_intent_fallback (cache : Cache IntentResult) (now : Nat) (code : ApiErrorCode)
    (text language : String)
    (hmiss : cacheGet cache (intentCacheKey text language) now = none)
    (hcode : code ≠ .insufficientQuota ∧ code ≠ .rateLimitExceeded) :
    (analyzeIntent cache now (.apiFailure code) text language).1 =
      .ok (fallbackIntentAnalysis text language now) ∧
    (analyzeIntent cache now .parseFailure text language).1 =
      .ok (fallbackIntentAnalysis text language now) ∧
    (match fallbackFirstMatch text with
     | some intent => (fallbackIntentAnalysis text language now).intent = intent ∧
         (fallbackIntentAnalysis text language now).confidence = 3 / 5
     | none => (fallbackIntentAnalysis text language now).intent = "unknown" ∧
         (fallbackIntentAnalysis text language now).confidence = 1 / 10) := by
  refine ⟨?_, ?_, ?_⟩
  · simp only [analyzeIntent, hmiss]
    simp [hcode.1, hcode.2]
  · simp only [analyzeIntent, hmiss]
  · unfold fallbackIntentAnalysis
    cases fallbackFirstMatch text <;> simp

/-- C2 witness: with an empty cache and a non-quota API failure on
"hello", `analyzeIntent` returns the fallback, whose first matching
keyword table row is `greeting` at confidence 0.6. -/
theorem c2_intent_fallback_witness :
    (analyzeIntent [] 0 (.apiFailure .other) "hello" "fr").1 =
      .ok (fallbackIntentAnalysis "hello" "fr" 0) ∧
    (fallbackIntentAnalysis "hello" "fr" 0).intent = "greeting" ∧
    (fallbackIntentAnalysis "hello" "fr" 0).confidence = 3 / 5 := by
  have h := c2_intent_fallback [] 0 .other "hello" "fr" rfl ⟨by decide, by decide⟩
  exact ⟨h.1, h.2.2⟩

/-- C3 counterexample: a text classified as `goodbye` with confidence 0.9
(threshold 0.5) leaves the persisted Conversation row of user 7 ACTIVE
with a null end timestamp — the goodbye handler never touches the
Conversation record — even though the goodbye message response is
returned, refuting the claimed Conversation-record update. -/
theorem c3_goodbye_counterexample :
    ((processTextMessage c3Env c3State c3User c3Session "bye").1.conversations.map
        (fun c => (c.status, c.endedAt))) = [("ACTIVE", (none : Option Nat))] ∧
    (processTextMessage c3Env c3State c3User c3Session "bye").2.2.1 =
      .ok ({ c3Session with status := some "ENDED",
                            context := { c3Session.context with endedAt := some 1000 } },
           .text (getLocalizedMessage "goodbye.message" "fr" {} "fr")) := by
  constructor
  · rfl
  · rfl

/-- C3 (amended): handling the goodbye intent marks the cache-backed
*session* as ended — `session.status = 'ENDED'` and
`session.context.endedAt = now` — and returns the localized goodbye
message; every persisted store (conversations included) is left
untouched. -/
theorem c3_goodbye_session (env : PTEnv) (st : PState) (nlp : IntentResult)
    (user : UserRec) (session : Session) (text : String) (h : nlp.intent = "goodbye") :
    handleIntent env st nlp user session text =
      (st,
       { session with status := some "ENDED",
                      context := { session.context with endedAt := some env.now } },
       .text (getLocalizedMessage "goodbye.message" user.language {} env.defaultLanguage)) := by
  unfold handleIntent handleGoodbye
  rw [h]
  rfl

/-- C3 witness: the goodbye branch at a concrete classified result. -/
theorem c3_goodbye_session_witness :
    handleIntent c3Env c3State
      { intent := "goodbye", confidence := 1, entities := [], sentiment := "neutral"
        originalText := "bye", language := "fr", timestamp := 0, fallback := false }
      c3User c3Session "bye" =
      (c3State,
       { c3Session with status := some "ENDED",
                        context := { c3Session.context with endedAt := some 1000 } },
       .text (getLocalizedMessage "goodbye.message" "fr" {} "fr")) := by
  exact c3_goodbye_session c3Env c3State _ c3User c3Session "bye" rfl

/-- C4: when the lower-cased text contains a configured handoff keyword,
`processTextMessage` short-circuits: the classifier `analyzeIntent` is
invoked zero times, the session context gains
`pendingHandoff = true` with the reason (the raw text) and the handoff
timestamp, and the localized handoff-initiated message is returned. -/
theorem c4_handoff_bypass (env : PTEnv) (st : PState) (user : UserRec)
    (session : Session) (text : String)
    (h : shouldTransferToHuman env.handoffKeywords text user.language = true) :
    processTextMessage env st user session text =
      ((applyDetectedLanguage env st user).1, (applyDetectedLanguage env st user).2,
       .ok ({ session with context :=
                { session.context with pendingHandoff := some true,
                                       handoffReason := some text,
                                       handoffTimestamp := some env.now } },
            .text (getLocalizedMessage "handoff.initiated"
              (applyDetectedLanguage env st user).2.language {} env.defaultLanguage)),
       0) := by
  have h' : shouldTransferToHuman env.handoffKeywords text
      (applyDetectedLanguage env st user).2.language = true := h
  unfold processTextMessage
  simp only [h', if_true]
  rfl

/-- C4 witness: "I want to talk to an agent" (keyword "agent") bypasses
classification with zero classifier calls and yields the English handoff
message with `pendingHandoff = true`. -/
theorem c4_handoff_bypass_witness :
    (processTextMessage c4Env c4State c4User c4Session "I want to talk to an agent").2.2.2
      = 0 ∧
    (processTextMessage c4Env c4State c4User c4Session "I want to talk to an agent").2.2.1 =
      .ok ({ c4Session with context :=
              { c4Session.context with pendingHandoff := some true,
                                       handoffReason := some "I want to talk to an agent",
                                       handoffTimestamp := some 1000 } },
           .text "I'm connecting you with a human agent. Please wait...") := by
  have h := c4_handoff_bypass c4Env c4State c4User c4Session "I want to talk to an agent"
    (by decide)
  constructor
  · rw [h]
  · rw [h]
    rfl

/-- C5: two `analyzeIntent` calls with the same `(text, language)` — the
first a cache miss answered by the model, the second within the 30-minute
TTL — yield one model invocation in total: the second call performs zero
model invocations and returns exactly the stored normalised result of the
first call, whatever the second call's would-be model outcome. -/
theorem c5_intent_cache (cache : Cache IntentResult) (t1 t2 : Nat)
    (out : ParsedModelOutput) (outcome2 : ModelOutcome) (text language : String)
    (hmiss : cacheGet cache (intentCacheKey text language) t1 = none)
    (httl : t2 < t1 + nlpCacheTTL * 1000) :
    (analyzeIntent (analyzeIntent cache t1 (.success out) text language).2.1 t2 outcome2
        text language).1 = (analyzeIntent cache t1 (.success out) text language).1 ∧
    (analyzeIntent (analyzeIntent cache t1 (.success out) text language).2.1 t2 outcome2
        text language).1 = .ok (normalizeIntentResult out text language t1) ∧
    (analyzeIntent cache t1 (.success out) text language).2.2 = 1 ∧
    (analyzeIntent (analyzeIntent cache t1 (.success out) text language).2.1 t2 outcome2
        text language).2.2 = 0 := by
  simp only [analyzeIntent, hmiss]
  simp [cacheGet, cacheSet, List.find?, httl]

/-- C5 witness: concrete back-to-back calls (times 0 and 1000 ms) on
"hola": identical results and a single model invocation. -/
theorem c5_intent_cache_witness :
    (analyzeIntent (analyzeIntent [] 0 (.success c5Out) "hola" "fr").2.1 1000
        (.apiFailure .other) "hola" "fr").1 =
      (analyzeIntent [] 0 (.success c5Out) "hola" "fr").1 ∧
    (analyzeIntent [] 0 (.success c5Out) "hola" "fr").2.2 = 1 ∧
    (analyzeIntent (analyzeIntent [] 0 (.success c5Out) "hola" "fr").2.1 1000
        (.apiFailure .other) "hola" "fr").2.2 = 0 := by
  have h := c5_intent_cache [] 0 1000 c5Out (.apiFailure .other) "hola" "fr" rfl (by decide)
  exact ⟨h.1, h.2.2.1, h.2.2.2⟩

/-- C6: `updateTicketStatus` with a target status outside the five enum
values returns a ValidationError and leaves the ticket store byte-for-byte
unchanged; a successful transition to RESOLVED or CLOSED stamps
`resolvedAt` with the current time. -/
theorem c6_update_status (store : List Ticket) (ticketId : Nat) (newStatus : String)
    (resolution agentId : Option String) (now : Nat) :
    (validStatuses.contains newStatus = false →
      updateTicketStatus store ticketId newStatus resolution agentId now =
        (store, .error (.validation ("Statut invalide: " ++ newStatus)))) ∧
    ((newStatus = "RESOLVED" ∨ newStatus = "CLOSED") →
      ∀ t, (updateTicketStatus store ticketId newStatus resolution agentId now).2 = .ok t →
        t.resolvedAt = some now) := by
  constructor
  · intro h
    unfold updateTicketStatus
    rw [if_pos (show ¬ (validStatuses.contains newStatus = true) by simpa using h)]
  · intro h t hok
    have hc : validStatuses.contains newStatus = true := by
      rcases h with h | h <;> subst h <;> decide
    unfold updateTicketStatus at hok
    simp only [hc, not_true, if_false] at hok
    rcases hfind : store.find? (fun t0 => t0.id == ticketId) with _ | t0
    · rw [hfind] at hok
      simp at hok
    · rw [hfind] at hok
      simp only [Except.ok.injEq] at hok
      rw [← hok]
      simp [h]

/-- C6 witness: status "FOO" on a one-ticket store is rejected without
mutation, while "RESOLVED" stamps `resolvedAt` with the current time. -/
theorem c6_update_status_witness :
    updateTicketStatus [c6Ticket] 1 "FOO" none none 5 =
      ([c6Ticket], .error (.validation "Statut invalide: FOO")) ∧
    ∃ t, (updateTicketStatus [c6Ticket] 1 "RESOLVED" none none 5).2 = .ok t ∧
      t.resolvedAt = some 5 := by
  have h := c6_update_status [c6Ticket] 1 "FOO" none none 5
  have h2 := c6_update_status [c6Ticket] 1 "RESOLVED" none none 5
  refine ⟨h.1 (by decide), ?_⟩
  refine ⟨{ c6Ticket with status := "RESOLVED", updatedAt := 5, resolvedAt := some 5 },
    rfl, ?_⟩
  exact h2.2 (Or.inl rfl) _ rfl

/-- C7: `determinePriority` checks the per-language URGENT keyword list
before the HIGH list and returns NORMAL when neither matches; in
particular the two concrete examples of the specification hold. -/
theorem c7_determine_priority :
    determinePriority "urgent: site is down" "en" = "URGENT" ∧
    determinePriority "just wondering" "en" = "NORMAL" ∧
    (∀ text language,
      ((urgentKeywords language).any (fun w => containsS (jsLowerS text) w) = true →
        determinePriority text language = "URGENT") ∧
      ((urgentKeywords language).any (fun w => containsS (jsLowerS text) w) = false →
        (highPriorityKeywords language).any (fun w => containsS (jsLowerS text) w) = true →
        determinePriority text language = "HIGH") ∧
      ((urgentKeywords language).any (fun w => containsS (jsLowerS text) w) = false →
        (highPriorityKeywords language).any (fun w => containsS (jsLowerS text) w) = false →
        determinePriority text language = "NORMAL")) := by
  refine ⟨by decide, by decide, ?_⟩
  intro text language
  refine ⟨?_, ?_, ?_⟩
  · intro h
    unfold determinePriority
    simp [h]
  · intro h1 h2
    unfold determinePriority
    simp [h1, h2]
  · intro h1 h2
    unfold determinePriority
    simp [h1, h2]

/-- C7 witness: the keyword branches applied at concrete French inputs. -/
theorem c7_determine_priority_witness :
    determinePriority "c est urgent" "fr" = "URGENT" ∧
    determinePriority "bonjour" "fr" = "NORMAL" := by
  have h := c7_determine_priority.2.2 "c est urgent" "fr"
  have h2 := c7_determine_priority.2.2 "bonjour" "fr"
  exact ⟨h.1 (by decide), h2.2.2 (by decide) (by decide)⟩

/-- C8: `extractTicketInfo` on the specification's example yields title
"Login broken" and description "cannot sign in since yesterday"; in
general, once trigger keywords are stripped (`ticketContent`), a content
with a `:`/`-`/newline separator and at least two non-empty parts yields
the first part (truncated to 100 chars) as title and the remaining parts
joined by spaces as description, and otherwise the title is synthesised
from the first 8 words (50-char ellipsis cap, generic localized fallback
inside `generateTitleFromText`) with the whole content as description. -/
theorem c8_extract_ticket_info :
    extractTicketInfo "Login broken: cannot sign in since yesterday" "en" =
      { title := "Login broken", description := "cannot sign in since yesterday",
        category := none } ∧
    (∀ text language,
      ((hasTicketSep (ticketContent text language) = true ∧
          2 ≤ (ticketParts (ticketContent text language)).length) →
        ∃ p0 prest, ticketParts (ticketContent text language) = p0 :: prest ∧
          (extractTicketInfo text language).title = truncateText p0 100 ∧
          (extractTicketInfo text language).description =
            String.mk (joinSpace (prest.map String.data))) ∧
      ((hasTicketSep (ticketContent text language) = false ∨
          (ticketParts (ticketContent text language)).length < 2) →
        (extractTicketInfo text language).title =
          generateTitleFromText (ticketContent text language) language ∧
        (extractTicketInfo text language).description = ticketContent text language)) := by
  refine ⟨by decide, ?_⟩
  intro text language
  constructor
  · rintro ⟨hsep, hlen⟩
    match hparts : ticketParts (ticketContent text language) with
    | [] => rw [hparts] at hlen; simp at hlen
    | [p] => rw [hparts] at hlen; simp at hlen
    | p0 :: p1 :: rest =>
        refine ⟨p0, p1 :: rest, rfl, ?_, ?_⟩
        · unfold extractTicketInfo
          simp only [hsep, if_true, hparts]
          have hp0 : p0 ≠ "" := ticketParts_ne_empty (by rw [hparts]; simp)
          simp [truncateText_ne_empty hp0]
        · unfold extractTicketInfo
          simp only [hsep, if_true, hparts]
          have hp1 : p1 ≠ "" := ticketParts_ne_empty (by rw [hparts]; simp)
          have hj : joinSpace ((p1 :: rest).map String.data) ≠ [] := by
            refine joinSpace_cons_ne_nil ?_ _
            intro hnil
            exact hp1 (by
              have := congrArg String.mk hnil
              simpa using this)
          simp only [List.map_cons] at hj
          simp [string_mk_ne_empty hj]
  · intro h
    have hgen : generateTitleFromText (ticketContent text language) language ≠ "" :=
      generateTitleFromText_ne_empty _ _
    rcases h with hsep | hlen
    · unfold extractTicketInfo
      simp [hsep, hgen, ite_self]
    · unfold extractTicketInfo
      rcases hsepb : hasTicketSep (ticketContent text language) with _ | _
      · simp [hsepb, hgen, ite_self]
      · match hparts : ticketParts (ticketContent text language) with
        | [] => simp [hsepb, hparts, hgen, ite_self]
        | [p] => simp [hsepb, hparts, hgen, ite_self]
        | p0 :: p1 :: rest =>
            rw [hparts] at hlen
            simp at hlen
            omega

/-- C8 witness: the separator branch applied at the specification's
concrete example. -/
theorem c8_extract_ticket_info_witness :
    ∃ p0 prest,
      ticketParts (ticketContent "Login broken: cannot sign in since yesterday" "en") =
        p0 :: prest ∧
      (extractTicketInfo "Login broken: cannot sign in since yesterday" "en").title =
        truncateText p0 100 ∧
      (extractTicketInfo "Login broken: cannot sign in since yesterday" "en").description =
        String.mk (joinSpace (prest.map String.data)) := by
  exact (c8_extract_ticket_info.2 "Login broken: cannot sign in since yesterday" "en").1
    ⟨by decide, by decide⟩

/-- C9: on a cache miss with a non-empty query against a store holding no
active entry in the requested language, both search tiers produce empty
result lists and `search` returns `null` (`none`) rather than raising. -/
theorem c9_kb_search_empty (store : List KBEntry) (cache : Cache (List KBResult))
    (now : Nat) (scores : List Rat) (nlpThrows : Bool) (query language : String)
    (lim : Nat)
    (hq : jsTrimS query ≠ "")
    (hmiss : cacheGet cache
      (kbSearchCacheKey (jsLowerS (jsTrimS query)) language lim) now = none)
    (hempty : ∀ e ∈ store, ¬(e.language = language ∧ e.isActive = true)) :
    searchByKeywords store (jsLowerS (jsTrimS query)) language lim = [] ∧
    searchSemantic store scores nlpThrows language lim = [] ∧
    (kbSearch store cache now scores nlpThrows query language lim).2 = none := by
  refine ⟨searchByKeywords_nil hempty _ _, searchSemantic_nil hempty _ _ _, ?_⟩
  unfold kbSearch
  simp only [hq, if_false, hmiss]
  rw [searchByKeywords_nil hempty, searchSemantic_nil hempty]
  simp [sortByDesc]

/-- C9 witness: query "hello" against an empty store and empty cache. -/
theorem c9_kb_search_empty_witness :
    searchByKeywords [] (jsLowerS (jsTrimS "hello")) "fr" 5 = [] ∧
    searchSemantic [] [] false "fr" 5 = [] ∧
    (kbSearch [] [] 0 [] false "hello" "fr" 5).2 = none := by
  exact c9_kb_search_empty [] [] 0 [] false "hello" "fr" 5 (by decide) rfl (by simp)

/-- C10: `calculateKeywordConfidence` always lands in [0, 1]: the weighted
score is a sum of non-negative parts divided by the positive
`queryWords.length + 2`, and the final `min` caps the quotient at 1. -/
theorem c10_keyword_confidence_bounds (query : String) (queryWords : List String)
    (entry : KBEntry) :
    0 ≤ calculateKeywordConfidence query queryWords entry ∧
    calculateKeywordConfidence query queryWords entry ≤ 1 := by
  unfold calculateKeywordConfidence
  dsimp only
  constructor
  · apply le_min
    · apply div_nonneg
      · have h1 : (0 : Rat) ≤ (if containsS (jsLowerS entry.question) query then 2 else 0) := by
          split <;> norm_num
        have h2 : (0 : Rat) ≤ (if entry.usageCount > 10 then 1 / 5 else 0) := by
          split <;> norm_num
        have h3 : (0 : Rat) ≤ ((queryWords.filter (fun word =>
            entry.keywords.any (fun k => containsS (jsLowerS k) word))).length : Rat) := by
          positivity
        have h4 : (0 : Rat) ≤ ((queryWords.filter (fun word =>
            (splitSpaces (jsLowerS entry.question)).any
              (fun qWord => containsS qWord word))).length : Rat) * (1 / 2) := by
          positivity
        linarith
      · positivity
    · norm_num
  · exact min_le_right _ _
